import Mathlib

/-!
Shallow embedding of `scripts/downloadImages.ts` from the httpstatusrabbits
repository.

The script is a batch "image materializer": given the status-code catalog it
either (a) with no Unsplash credential, writes a placeholder URL mapping file,
or (b) with a credential, iterates the catalog, searches Unsplash for a rabbit
image per code (contextual query, falling back to a generic query), downloads
the first hit and saves it as `<code>.jpg`, skipping codes whose file already
exists.

Effects are modelled as explicit traces: network calls, file writes, the
directory-creation step and the inter-entry delay are data returned by pure
functions.  Network behaviour is a parameter (an oracle from query / url to an
outcome), so theorems quantify over every possible service behaviour.
-/

/-- One record of the status-code catalog (`httpStatusCodes`); the script uses
only the `code` and `message` fields. -/
structure StatusRecord where
  code : Nat
  message : String
deriving DecidableEq, Repr

/-- Outcome of a `fetch` of the search endpoint: the call can throw, or return
a response with an `ok` flag and a JSON result list (modelled by the list of
`urls.regular` strings of the results). -/
inductive FetchOutcome where
  | threw : FetchOutcome
  | response (ok : Bool) (results : List String) : FetchOutcome
deriving DecidableEq, Repr

/-- Outcome of a `fetch` of an image URL: throw, or a response with an `ok`
flag and a byte body. -/
inductive DownloadOutcome where
  | threw : DownloadOutcome
  | response (ok : Bool) (body : List Nat) : DownloadOutcome
deriving DecidableEq, Repr

/-- A network call issued by the script: a search request (recorded by its
query string) or an image download (recorded by its URL). -/
inductive NetworkCall where
  | search (query : String) : NetworkCall
  | download (url : String) : NetworkCall
deriving DecidableEq, Repr

/-- The `contextualQueries` table of the script, transcribed entry for entry:
a map from status code to a hand-authored search phrase. -/
def contextualQueriesList : List (Nat × String) := [
  (100, "rabbit waiting listening"),
  (101, "rabbit changing switching"),
  (102, "rabbit working busy processing"),
  (103, "rabbit preparing getting ready"),
  (200, "rabbit happy successful"),
  (201, "rabbit building creating"),
  (202, "rabbit nodding accepting"),
  (203, "rabbit messenger delivering"),
  (204, "rabbit empty blank"),
  (205, "rabbit cleaning refreshing"),
  (206, "rabbit eating partial"),
  (207, "rabbit multiple group"),
  (208, "rabbit already done"),
  (226, "rabbit transformed different"),
  (300, "rabbit choosing options paths"),
  (301, "rabbit moving permanently"),
  (302, "rabbit hopping temporary"),
  (303, "rabbit pointing directing"),
  (304, "rabbit same unchanged"),
  (305, "rabbit behind fence proxy"),
  (306, "rabbit confused old"),
  (307, "rabbit detour temporary"),
  (308, "rabbit moved new home"),
  (400, "rabbit confused question"),
  (401, "rabbit guard blocking"),
  (402, "rabbit money payment"),
  (403, "rabbit forbidden no entry"),
  (404, "rabbit lost hiding missing"),
  (405, "rabbit stop rejected"),
  (406, "rabbit picky refusing"),
  (407, "rabbit gatekeeper"),
  (408, "rabbit sleeping timeout"),
  (409, "rabbit fighting conflict"),
  (410, "rabbit gone empty"),
  (411, "rabbit measuring length"),
  (412, "rabbit requirements failed"),
  (413, "rabbit too big large"),
  (414, "rabbit long stretched"),
  (415, "rabbit wrong format"),
  (416, "rabbit reaching unreachable"),
  (417, "rabbit disappointed expectation"),
  (418, "rabbit teapot tea"),
  (421, "rabbit wrong place misdirected"),
  (422, "rabbit rules validation"),
  (423, "rabbit locked cage"),
  (424, "rabbit chain dependent"),
  (425, "rabbit early too soon"),
  (426, "rabbit upgrade level up"),
  (428, "rabbit requirement needed"),
  (429, "rabbit tired exhausted rate limit"),
  (430, "rabbit header"),
  (431, "rabbit overwhelmed too much"),
  (440, "rabbit session expired"),
  (444, "rabbit silent no response"),
  (449, "rabbit retry again"),
  (450, "rabbit parental blocked"),
  (451, "rabbit legal forbidden law"),
  (460, "rabbit closed connection"),
  (463, "rabbit many addresses"),
  (494, "rabbit header large"),
  (495, "rabbit certificate ssl"),
  (496, "rabbit certificate required"),
  (497, "rabbit secure https"),
  (498, "rabbit token invalid"),
  (499, "rabbit quit left"),
  (500, "rabbit broken error crash"),
  (501, "rabbit shrug not implemented"),
  (502, "rabbit bad gateway middleman"),
  (503, "rabbit maintenance down"),
  (504, "rabbit timeout waiting clock"),
  (505, "rabbit old version outdated"),
  (506, "rabbit circular loop"),
  (507, "rabbit full storage"),
  (508, "rabbit infinite loop dizzy"),
  (510, "rabbit extension required"),
  (511, "rabbit network authentication"),
  (520, "rabbit unknown mystery"),
  (521, "rabbit down offline"),
  (522, "rabbit timeout connection"),
  (523, "rabbit unreachable far"),
  (524, "rabbit timeout slow"),
  (525, "rabbit handshake ssl"),
  (526, "rabbit certificate invalid"),
  (527, "rabbit railgun error"),
  (529, "rabbit overloaded stress"),
  (530, "rabbit frozen ice"),
  (561, "rabbit unauthorized"),
  (598, "rabbit network timeout"),
  (599, "rabbit network timeout")]

/-- `contextualQueries[statusCode]`: lookup in the contextual-query record. -/
def contextualQueries (code : Nat) : Option String :=
  (contextualQueriesList.find? (fun p => p.1 == code)).map (fun p => p.2)

/-- JS `String.prototype.toLowerCase`, modelled character-wise (the catalog
messages are ASCII, where this agrees with JS). -/
def jsToLowerCase (s : String) : String :=
  ⟨s.data.map Char.toLower⟩

/-- The message-based query: `"rabbit " + message.toLowerCase()`. -/
def messageQuery (message : String) : String :=
  "rabbit " ++ jsToLowerCase message

/-- The query the try-block of `searchUnsplashRabbit` computes:
`contextQuery || "rabbit " + message.toLowerCase()` — the contextual query
when one is present (and, being a JS `||`, non-falsy, i.e. non-empty),
otherwise the message-based query. -/
def effectiveQuery (statusCode : Nat) (message : String) : String :=
  match contextualQueries statusCode with
  | some q => if q = "" then messageQuery message else q
  | none => messageQuery message

/-- The search sequence of the try-block of `searchUnsplashRabbit`: fetch the
search endpoint with `searchQuery`; on a thrown error or a non-ok response
return no image; on a hit return the first result; on an ok response with
zero results fall back to one fetch with the bare query `"rabbit"` and take
its first result, if any.  Returns the trace of search calls and the
resolved URL. -/
def runSearch (searchQuery : String) (oracle : String → FetchOutcome) :
    List NetworkCall × Option String :=
  match oracle searchQuery with
  | FetchOutcome.threw => ([NetworkCall.search searchQuery], none)
  | FetchOutcome.response ok results =>
    if ok then
      match results with
      | first :: _ => ([NetworkCall.search searchQuery], some first)
      | [] =>
        match oracle "rabbit" with
        | FetchOutcome.threw =>
          ([NetworkCall.search searchQuery, NetworkCall.search "rabbit"], none)
        | FetchOutcome.response fok fresults =>
          if fok then
            match fresults with
            | ffirst :: _ =>
              ([NetworkCall.search searchQuery, NetworkCall.search "rabbit"], some ffirst)
            | [] => ([NetworkCall.search searchQuery, NetworkCall.search "rabbit"], none)
          else ([NetworkCall.search searchQuery, NetworkCall.search "rabbit"], none)
    else ([NetworkCall.search searchQuery], none)

/-- `searchUnsplashRabbit(statusCode, message)`.  `key` models
`UNSPLASH_ACCESS_KEY` (`none` when the environment variable is unset),
`oracle` models the behaviour of the Unsplash search endpoint per query
string.  With no key the function logs and returns `null` without touching
the network; otherwise it runs the fallback search sequence on the effective
query.  Returns the ordered trace of network calls together with the
resolved image URL (`none` on every no-image path, which also covers a
thrown error anywhere in the try-block). -/
def searchUnsplashRabbit (key : Option String) (statusCode : Nat) (message : String)
    (oracle : String → FetchOutcome) : List NetworkCall × Option String :=
  match key with
  | none => ([], none)
  | some _ => runSearch (effectiveQuery statusCode message) oracle

/-- `downloadImage(url, filename)`: fetch the URL (behaviour given by the
download oracle `dl`) and on success write the body to `filename`.  Returns
the network calls, the filenames written, and the boolean result. -/
def downloadImage (url filename : String) (dl : String → DownloadOutcome) :
    List NetworkCall × List String × Bool :=
  match dl url with
  | DownloadOutcome.threw => ([NetworkCall.download url], [], false)
  | DownloadOutcome.response ok _body =>
    if ok then ([NetworkCall.download url], [filename], true)
    else ([NetworkCall.download url], [], false)

/-- How one iteration of the `main` loop ended for a catalog entry. -/
inductive EntryOutcome where
  /-- The `<code>.jpg` file already existed: skipped, counted as success. -/
  | skipped : EntryOutcome
  /-- Image found and downloaded: counted as success. -/
  | downloaded : EntryOutcome
  /-- Image found but `downloadImage` returned false: counted as failure. -/
  | downloadFailed : EntryOutcome
  /-- The resolver returned no image URL: counted as failure. -/
  | noImage : EntryOutcome
deriving DecidableEq, Repr

/-- Everything one iteration of the `main` loop did for one catalog entry:
its network calls in order, the filenames it wrote, the rate-limit delay it
awaited (milliseconds; 0 when none) and its outcome. -/
structure EntryResult where
  calls : List NetworkCall
  wrote : List String
  delayMs : Nat
  outcome : EntryOutcome
deriving DecidableEq, Repr

/-- The body of the `for (const status of httpStatusCodes)` loop in `main`,
in live-fetch mode (credential `key` present).  `existing` is the set of
filenames currently present in the rabbits directory. -/
def processEntry (key : String) (existing : List String) (oracle : String → FetchOutcome)
    (dl : String → DownloadOutcome) (status : StatusRecord) : EntryResult :=
  let filename := toString status.code ++ ".jpg"
  if filename ∈ existing then
    { calls := [], wrote := [], delayMs := 0, outcome := EntryOutcome.skipped }
  else
    let sr := searchUnsplashRabbit (some key) status.code status.message oracle
    match sr.2 with
    | some url =>
      let d := downloadImage url filename dl
      if d.2.2 then
        { calls := sr.1 ++ d.1, wrote := d.2.1, delayMs := 1000,
          outcome := EntryOutcome.downloaded }
      else
        { calls := sr.1 ++ d.1, wrote := d.2.1, delayMs := 1000,
          outcome := EntryOutcome.downloadFailed }
    | none =>
      { calls := sr.1, wrote := [], delayMs := 1000, outcome := EntryOutcome.noImage }

/-- Counter increment for `successCount`: skipped and downloaded entries
count as successes. -/
def outcomeSucc (o : EntryOutcome) : Nat :=
  match o with
  | EntryOutcome.skipped => 1
  | EntryOutcome.downloaded => 1
  | EntryOutcome.downloadFailed => 0
  | EntryOutcome.noImage => 0

/-- Counter increment for `failCount`: a failed download and a missing image
count as failures. -/
def outcomeFail (o : EntryOutcome) : Nat :=
  match o with
  | EntryOutcome.skipped => 0
  | EntryOutcome.downloaded => 0
  | EntryOutcome.downloadFailed => 1
  | EntryOutcome.noImage => 1

/-- Result of the live-fetch loop: the per-entry results in catalog order and
the final values of the two counters. -/
structure LoopOut where
  entries : List EntryResult
  successCount : Nat
  failCount : Nat
deriving DecidableEq, Repr

/-- The live-fetch loop of `main`: process the catalog in order, threading the
set of existing files (writes of earlier iterations become visible to later
`fs.existsSync` checks) and the two counters. -/
def runLoop (key : String) (oracle : String → FetchOutcome) (dl : String → DownloadOutcome) :
    List StatusRecord → List String → Nat → Nat → LoopOut
  | [], _, succ, fail => { entries := [], successCount := succ, failCount := fail }
  | status :: rest, existing, succ, fail =>
    let r := processEntry key existing oracle dl status
    let out := runLoop key oracle dl rest (existing ++ r.wrote)
      (succ + outcomeSucc r.outcome) (fail + outcomeFail r.outcome)
    { entries := r :: out.entries, successCount := out.successCount,
      failCount := out.failCount }

/-- The placeholder URL generated for a status code in placeholder mode:
`https://picsum.photos/seed/<code>/800/600`, a function of the code alone. -/
def placeholderUrl (code : Nat) : String :=
  "https://picsum.photos/seed/" ++ toString code ++ "/800/600"

/-- Assignment `m[k] = v` on a JS object modelled as an association list:
overwrite the entry of an existing key, otherwise append a new entry. -/
def insertRecord (m : List (Nat × String)) (k : Nat) (v : String) : List (Nat × String) :=
  if m.any (fun p => p.1 == k) then
    m.map (fun p => if p.1 == k then (k, v) else p)
  else m ++ [(k, v)]

/-- The `placeholders` object built by the placeholder branch of `main`: one
assignment per catalog entry, keyed by the status code. -/
def buildPlaceholders (catalog : List StatusRecord) : List (Nat × String) :=
  catalog.foldl (fun m s => insertRecord m s.code (placeholderUrl s.code)) []

/-- An observable effect of a script run, in order: the recursive directory
creation at module load, a search request, an image download, a file write,
or the inter-entry rate-limit delay. -/
inductive Event where
  | mkdirRecursive (dir : String) : Event
  | search (query : String) : Event
  | download (url : String) : Event
  | writeFile (name : String) : Event
  | delay (ms : Nat) : Event
deriving DecidableEq, Repr

/-- A network call as a trace event. -/
def callEvent (c : NetworkCall) : Event :=
  match c with
  | NetworkCall.search q => Event.search q
  | NetworkCall.download u => Event.download u

/-- The ordered events of one loop iteration: its network calls, then its
file writes, then its delay (when one was awaited). -/
def entryEvents (r : EntryResult) : List Event :=
  r.calls.map callEvent ++ r.wrote.map Event.writeFile ++
    (if r.delayMs = 0 then [] else [Event.delay r.delayMs])

/-- A whole run of the script, as observable data. -/
structure ScriptRun where
  /-- Whether the module-load step called `fs.mkdirSync(publicDir, recursive)`. -/
  dirCreated : Bool
  /-- The full ordered effect trace of the run. -/
  events : List Event
  /-- The placeholder mapping document written, when in placeholder mode. -/
  placeholderDoc : Option (List (Nat × String))
  /-- Per-entry results of the live-fetch loop (empty in placeholder mode). -/
  entries : List EntryResult
  /-- All network calls of the run, in order. -/
  networkCalls : List NetworkCall
  successCount : Nat
  failCount : Nat
deriving DecidableEq, Repr

/-- The relative path of the rabbits image directory (`publicDir`). -/
def publicDirPath : String := "public/rabbits"

/-- The relative path of the placeholder mapping document. -/
def placeholderDocPath : String := "src/data/imagePlaceholders.json"

/-- One run of the whole script: the module-level directory check, then
`main()`.  `key` models `UNSPLASH_ACCESS_KEY`, `dirExists` whether
`publicDir` existed at startup, `existing` the filenames already present in
it, `catalog` the `httpStatusCodes` list, and `oracle` / `dl` the behaviour
of the search endpoint and of image downloads. -/
def runScript (key : Option String) (dirExists : Bool) (existing : List String)
    (catalog : List StatusRecord) (oracle : String → FetchOutcome)
    (dl : String → DownloadOutcome) : ScriptRun :=
  let startupEvents := if dirExists then [] else [Event.mkdirRecursive publicDirPath]
  match key with
  | none =>
    { dirCreated := !dirExists
      events := startupEvents ++ [Event.writeFile placeholderDocPath]
      placeholderDoc := some (buildPlaceholders catalog)
      entries := []
      networkCalls := []
      successCount := 0
      failCount := 0 }
  | some k =>
    let out := runLoop k oracle dl catalog existing 0 0
    { dirCreated := !dirExists
      events := startupEvents ++ (out.entries.map entryEvents).flatten
      placeholderDoc := none
      entries := out.entries
      networkCalls := (out.entries.map EntryResult.calls).flatten
      successCount := out.successCount
      failCount := out.failCount }

/-- A search service that answers every query with an ok, zero-result page. -/
def allEmptyOracle : String → FetchOutcome := fun _ => FetchOutcome.response true []

/-- A download service on which every fetch throws. -/
def allThrowDl : String → DownloadOutcome := fun _ => DownloadOutcome.threw

/-- The entry result of an iteration satisfied by the existing-file shortcut:
no calls, no writes, no delay, counted as already satisfied. -/
def skippedEntry : EntryResult :=
  { calls := [], wrote := [], delayMs := 0, outcome := EntryOutcome.skipped }

/-! ## Helper lemmas -/

/-- Every hand-authored phrase of the contextual-query table is non-empty
(so the JS `||` never discards a present entry as falsy). -/
theorem contextualQueriesList_values_ne_empty :
    ∀ p ∈ contextualQueriesList, ¬ p.2 = "" := by decide

/-- A contextual query found for a code is one of the phrases of the table, hence
non-empty. -/
theorem contextualQueries_ne_empty {code : Nat} {q : String}
    (h : contextualQueries code = some q) : ¬ q = "" := by
  unfold contextualQueries at h
  cases hf : contextualQueriesList.find? (fun p => p.1 == code) with
  | none => rw [hf] at h; exact absurd h (by simp)
  | some p =>
    rw [hf] at h
    have hq : p.2 = q := Option.some.inj h
    have hm := List.mem_of_find?_eq_some hf
    rw [← hq]
    exact contextualQueriesList_values_ne_empty p hm

/-- When a code has a contextual query, that query is the effective query. -/
theorem effectiveQuery_of_ctx {code : Nat} {q : String} (message : String)
    (h : contextualQueries code = some q) :
    effectiveQuery code message = q := by
  unfold effectiveQuery
  rw [h]
  show (if q = "" then messageQuery message else q) = q
  rw [if_neg (contextualQueries_ne_empty h)]

/-- When a code has no contextual query, the message-based query is the
effective query. -/
theorem effectiveQuery_of_no_ctx {code : Nat} (message : String)
    (h : contextualQueries code = none) :
    effectiveQuery code message = messageQuery message := by
  unfold effectiveQuery
  rw [h]

/-- `runSearch` issues its given query first, then at most one bare
`"rabbit"` fallback search. -/
theorem runSearch_calls (q : String) (oracle : String → FetchOutcome) :
    (runSearch q oracle).1 = [NetworkCall.search q] ∨
    (runSearch q oracle).1 = [NetworkCall.search q, NetworkCall.search "rabbit"] := by
  unfold runSearch
  cases oracle q with
  | threw => exact Or.inl rfl
  | response ok results =>
    cases ok with
    | false => exact Or.inl rfl
    | true =>
      cases results with
      | cons first rest => exact Or.inl rfl
      | nil =>
        cases oracle "rabbit" with
        | threw => exact Or.inr rfl
        | response fok fresults =>
          cases fok with
          | false => exact Or.inr rfl
          | true =>
            cases fresults with
            | cons ffirst frest => exact Or.inr rfl
            | nil => exact Or.inr rfl

/-- The first network call of `runSearch` is always the given query. -/
theorem runSearch_head (q : String) (oracle : String → FetchOutcome) :
    ((runSearch q oracle).1).head? = some (NetworkCall.search q) := by
  cases runSearch_calls q oracle with
  | inl h => rw [h]; rfl
  | inr h => rw [h]; rfl

/-- `runSearch` always issues at least one network call. -/
theorem runSearch_ne_nil (q : String) (oracle : String → FetchOutcome) :
    ¬ (runSearch q oracle).1 = [] := by
  cases runSearch_calls q oracle with
  | inl h => rw [h]; simp
  | inr h => rw [h]; simp

/-- When the first search comes back ok with zero results, `runSearch` makes
exactly one further call, with the bare query `"rabbit"`. -/
theorem runSearch_of_empty (q : String) (oracle : String → FetchOutcome)
    (h : oracle q = FetchOutcome.response true []) :
    (runSearch q oracle).1 = [NetworkCall.search q, NetworkCall.search "rabbit"] := by
  unfold runSearch
  rw [h]
  cases oracle "rabbit" with
  | threw => rfl
  | response fok fresults =>
    cases fok with
    | false => rfl
    | true => cases fresults with
      | cons ffirst frest => rfl
      | nil => rfl

/-- With a credential, the head of the call trace of the resolver is a search for
the contextual query whenever the code has one. -/
theorem searchUnsplashRabbit_head_of_ctx {code : Nat} {q : String}
    (key message : String) (oracle : String → FetchOutcome)
    (h : contextualQueries code = some q) :
    ((searchUnsplashRabbit (some key) code message oracle).1).head? =
      some (NetworkCall.search q) := by
  show ((runSearch (effectiveQuery code message) oracle).1).head? = _
  rw [effectiveQuery_of_ctx message h]
  exact runSearch_head q oracle

/-! ## Claims about the Image Resolver -/

/-- C7: for every status code that has a contextual query defined, the first
search query the resolver issues is exactly that contextual query string
(hence neither the message-based query nor the bare generic term is issued
first). -/
theorem c7_contextual_query_first (key : String) (code : Nat) (q message : String)
    (oracle : String → FetchOutcome) (h : contextualQueries code = some q) :
    ((searchUnsplashRabbit (some key) code message oracle).1).head? =
      some (NetworkCall.search q) :=
  searchUnsplashRabbit_head_of_ctx key message oracle h

/-- C7 witness: code 418 has the contextual query `"rabbit teapot tea"`, and
the first search the resolver issues for 418 is exactly that phrase — not
the message-based query and not the bare generic term. -/
theorem c7_contextual_query_first_witness :
    ((searchUnsplashRabbit (some "k") 418 "I\x27m a teapot" allEmptyOracle).1).head? =
        some (NetworkCall.search "rabbit teapot tea") ∧
      ("rabbit teapot tea" : String) ≠ messageQuery "I\x27m a teapot" ∧
      ("rabbit teapot tea" : String) ≠ "rabbit" :=
  ⟨c7_contextual_query_first "k" 418 "rabbit teapot tea" "I\x27m a teapot"
      allEmptyOracle (by decide),
    by decide, by decide⟩

/-- C3 counterexample: code 451 does have a contextual query entry,
`"rabbit legal forbidden law"`, and with every search returning zero results
the first search the resolver issues for 451 uses that phrase, not the message-based
query `"rabbit unavailable for legal reasons"` — which in fact never
appears among the issued calls. -/
theorem c3_counterexample :
    contextualQueries 451 = some "rabbit legal forbidden law" ∧
    messageQuery "Unavailable For Legal Reasons" =
      "rabbit unavailable for legal reasons" ∧
    ((searchUnsplashRabbit (some "k") 451 "Unavailable For Legal Reasons"
        allEmptyOracle).1).head? =
      some (NetworkCall.search "rabbit legal forbidden law") ∧
    NetworkCall.search "rabbit unavailable for legal reasons" ∉
      (searchUnsplashRabbit (some "k") 451 "Unavailable For Legal Reasons"
        allEmptyOracle).1 := by
  refine ⟨by decide, by decide, by decide, by decide⟩

/-- C3 amended: code 451 has the contextual query entry
`"rabbit legal forbidden law"`, and the first search the resolver issues for code 451
(whatever the message and the service behaviour) uses exactly that phrase,
before any generic fallback. -/
theorem c3_451_contextual_first (key message : String)
    (oracle : String → FetchOutcome) :
    contextualQueries 451 = some "rabbit legal forbidden law" ∧
    ((searchUnsplashRabbit (some key) 451 message oracle).1).head? =
      some (NetworkCall.search "rabbit legal forbidden law") :=
  ⟨by decide,
    searchUnsplashRabbit_head_of_ctx key message oracle (by decide)⟩

/-- C1 counterexample: code 418 has the contextual query
`"rabbit teapot tea"`; when that search returns ok with zero results the
next (and last) search the resolver issues is the bare generic
`"rabbit"`, and the message-based query (rabbit followed by the lower-cased
message) is never issued at all. -/
theorem c1_counterexample :
    contextualQueries 418 = some "rabbit teapot tea" ∧
    (searchUnsplashRabbit (some "k") 418 "I\x27m a teapot" allEmptyOracle).1 =
      [NetworkCall.search "rabbit teapot tea", NetworkCall.search "rabbit"] ∧
    NetworkCall.search (messageQuery "I\x27m a teapot") ∉
      (searchUnsplashRabbit (some "k") 418 "I\x27m a teapot" allEmptyOracle).1 := by
  refine ⟨by decide, by decide, by decide⟩

/-- C1 amended: for every status code that has a contextual query defined,
if the search with that contextual query comes back ok with zero results,
the next and only further search the resolver issues uses the bare generic term
`"rabbit"` — there is no intermediate message-based search. -/
theorem c1_generic_after_ctx_miss (key : String) (code : Nat) (q message : String)
    (oracle : String → FetchOutcome) (h : contextualQueries code = some q)
    (hz : oracle q = FetchOutcome.response true []) :
    (searchUnsplashRabbit (some key) code message oracle).1 =
      [NetworkCall.search q, NetworkCall.search "rabbit"] := by
  show (runSearch (effectiveQuery code message) oracle).1 = _
  rw [effectiveQuery_of_ctx message h]
  exact runSearch_of_empty q oracle hz

/-- C1 witness: the amended behaviour at code 418 with an all-empty search
service. -/
theorem c1_generic_after_ctx_miss_witness :
    (searchUnsplashRabbit (some "k") 418 "I\x27m a teapot" allEmptyOracle).1 =
      [NetworkCall.search "rabbit teapot tea", NetworkCall.search "rabbit"] :=
  c1_generic_after_ctx_miss "k" 418 "rabbit teapot tea" "I\x27m a teapot"
    allEmptyOracle (by decide) rfl

/-- C2 counterexample: with no credential the resolver makes no network call
(the true half of the claim), but the value it returns — `none` — is
identical to the value returned by a credentialed run whose searches all
yield zero results, so the caller cannot distinguish "no credential" from
"no match found" by the result of the resolver. -/
theorem c2_counterexample :
    (searchUnsplashRabbit none 404 "Not Found" allEmptyOracle).1 = [] ∧
    (searchUnsplashRabbit none 404 "Not Found" allEmptyOracle).2 =
      (searchUnsplashRabbit (some "k") 404 "Not Found" allEmptyOracle).2 := by
  refine ⟨by decide, by decide⟩

/-- C2 amended: when no service credential is configured the resolver
short-circuits without any network call and returns the null image result —
the same `none` a credentialed run returns when every search yields zero
results; the two outcomes are distinguished only by log output, not by the
value the caller receives. -/
theorem c2_no_credential_short_circuit (code : Nat) (message : String)
    (oracle : String → FetchOutcome) (key : String) :
    searchUnsplashRabbit none code message oracle = ([], none) ∧
    (searchUnsplashRabbit (some key) code message allEmptyOracle).2 = none :=
  ⟨rfl, rfl⟩

/-! ## Helper lemmas about the live-fetch loop -/

/-- The loop produces one entry result per catalog entry. -/
theorem runLoop_entries_length (key : String) (oracle : String → FetchOutcome)
    (dl : String → DownloadOutcome) :
    ∀ (catalog : List StatusRecord) (existing : List String) (s f : Nat),
      (runLoop key oracle dl catalog existing s f).entries.length = catalog.length := by
  intro catalog
  induction catalog with
  | nil => intro existing s f; rfl
  | cons status rest ih =>
    intro existing s f
    simp only [runLoop, List.length_cons]
    rw [ih]

/-- The final success counter is the initial one plus the number of entries
whose outcome was skipped or downloaded. -/
theorem runLoop_successCount (key : String) (oracle : String → FetchOutcome)
    (dl : String → DownloadOutcome) :
    ∀ (catalog : List StatusRecord) (existing : List String) (s f : Nat),
      (runLoop key oracle dl catalog existing s f).successCount =
        s + (runLoop key oracle dl catalog existing s f).entries.countP
          (fun r => r.outcome == EntryOutcome.skipped ||
            r.outcome == EntryOutcome.downloaded) := by
  intro catalog
  induction catalog with
  | nil => intro existing s f; simp [runLoop]
  | cons status rest ih =>
    intro existing s f
    simp only [runLoop]
    rw [List.countP_cons, ih]
    cases hout : (processEntry key existing oracle dl status).outcome <;>
      simp [outcomeSucc, hout] <;> omega

/-- The final failure counter is the initial one plus the number of entries
whose outcome was a failed download or a missing image. -/
theorem runLoop_failCount (key : String) (oracle : String → FetchOutcome)
    (dl : String → DownloadOutcome) :
    ∀ (catalog : List StatusRecord) (existing : List String) (s f : Nat),
      (runLoop key oracle dl catalog existing s f).failCount =
        f + (runLoop key oracle dl catalog existing s f).entries.countP
          (fun r => r.outcome == EntryOutcome.downloadFailed ||
            r.outcome == EntryOutcome.noImage) := by
  intro catalog
  induction catalog with
  | nil => intro existing s f; simp [runLoop]
  | cons status rest ih =>
    intro existing s f
    simp only [runLoop]
    rw [List.countP_cons, ih]
    cases hout : (processEntry key existing oracle dl status).outcome <;>
      simp [outcomeFail, hout] <;> omega

/-- Each iteration increments exactly one of the two counters, so the final
counters sum to the initial ones plus the catalog length. -/
theorem runLoop_counts_sum (key : String) (oracle : String → FetchOutcome)
    (dl : String → DownloadOutcome) :
    ∀ (catalog : List StatusRecord) (existing : List String) (s f : Nat),
      (runLoop key oracle dl catalog existing s f).successCount +
        (runLoop key oracle dl catalog existing s f).failCount =
          s + f + catalog.length := by
  intro catalog
  induction catalog with
  | nil => intro existing s f; simp [runLoop]
  | cons status rest ih =>
    intro existing s f
    simp only [runLoop, List.length_cons]
    rw [ih]
    cases (processEntry key existing oracle dl status).outcome <;>
      simp [outcomeSucc, outcomeFail] <;> omega

/-- Every entry result produced by the loop is the result of `processEntry`
at some filesystem state. -/
theorem runLoop_entries_are_processEntry (key : String) (oracle : String → FetchOutcome)
    (dl : String → DownloadOutcome) :
    ∀ (catalog : List StatusRecord) (existing : List String) (s f : Nat)
      (r : EntryResult), r ∈ (runLoop key oracle dl catalog existing s f).entries →
      ∃ existing2 status, r = processEntry key existing2 oracle dl status := by
  intro catalog
  induction catalog with
  | nil => intro existing s f r hr; exact absurd hr (by simp [runLoop])
  | cons status rest ih =>
    intro existing s f r hr
    simp only [runLoop, List.mem_cons] at hr
    cases hr with
    | inl h => exact ⟨existing, status, h⟩
    | inr h => exact ih _ _ _ r h

/-- The per-entry delay and call trace: a skipped entry makes no network
call and awaits no delay; every other entry makes at least one network call
and awaits the 1000 ms rate-limit delay. -/
theorem processEntry_delay_calls (key : String) (existing : List String)
    (oracle : String → FetchOutcome) (dl : String → DownloadOutcome)
    (status : StatusRecord) :
    (processEntry key existing oracle dl status).delayMs =
      (if (processEntry key existing oracle dl status).outcome =
          EntryOutcome.skipped then 0 else 1000) ∧
    ((processEntry key existing oracle dl status).calls = [] ↔
      (processEntry key existing oracle dl status).outcome =
        EntryOutcome.skipped) := by
  unfold processEntry
  by_cases hex : (toString status.code ++ ".jpg") ∈ existing
  · simp [hex]
  · simp only [hex, if_false]
    cases hsr : (searchUnsplashRabbit (some key) status.code status.message oracle).2 with
    | none =>
      simp only []
      refine ⟨rfl, ?_⟩
      constructor
      · intro hc
        exact absurd hc (runSearch_ne_nil (effectiveQuery status.code status.message) oracle)
      · intro hout
        exact absurd hout (by simp)
    | some url =>
      simp only []
      by_cases hd : (downloadImage url (toString status.code ++ ".jpg") dl).2.2
      · simp only [hd, if_true]
        refine ⟨rfl, ?_⟩
        constructor
        · intro hc
          have := List.append_eq_nil.mp hc
          exact absurd this.1
            (runSearch_ne_nil (effectiveQuery status.code status.message) oracle)
        · intro hout
          exact absurd hout (by simp)
      · simp only [hd, if_false]
        refine ⟨rfl, ?_⟩
        constructor
        · intro hc
          have := List.append_eq_nil.mp hc
          exact absurd this.1
            (runSearch_ne_nil (effectiveQuery status.code status.message) oracle)
        · intro hout
          exact absurd hout (by simp)

/-! ## Claims about the Image Materializer -/

/-- C6: in live-fetch mode no per-entry failure aborts the batch — the run
produces exactly one entry result per catalog entry (every entry is
attempted; the embedding is a total function, so nothing propagates), and
the final failure counter equals the number of entries whose processing
failed (failed download or no image found). -/
theorem c6_batch_never_aborts (key : String) (dirExists : Bool)
    (existing : List String) (catalog : List StatusRecord)
    (oracle : String → FetchOutcome) (dl : String → DownloadOutcome) :
    (runScript (some key) dirExists existing catalog oracle dl).entries.length =
      catalog.length ∧
    (runScript (some key) dirExists existing catalog oracle dl).failCount =
      (runScript (some key) dirExists existing catalog oracle dl).entries.countP
        (fun r => r.outcome == EntryOutcome.downloadFailed ||
          r.outcome == EntryOutcome.noImage) := by
  constructor
  · exact runLoop_entries_length key oracle dl catalog existing 0 0
  · have h := runLoop_failCount key oracle dl catalog existing 0 0
    simpa using h

/-- C10: in live-fetch mode each catalog entry increments exactly one of the
two counters — the success counter counts exactly the skipped and downloaded
entries (so existing-file skips count as successes), the failure counter the
rest, and the two counters sum to the catalog length. -/
theorem c10_counter_partition (key : String) (dirExists : Bool)
    (existing : List String) (catalog : List StatusRecord)
    (oracle : String → FetchOutcome) (dl : String → DownloadOutcome) :
    (runScript (some key) dirExists existing catalog oracle dl).successCount =
      (runScript (some key) dirExists existing catalog oracle dl).entries.countP
        (fun r => r.outcome == EntryOutcome.skipped ||
          r.outcome == EntryOutcome.downloaded) ∧
    (runScript (some key) dirExists existing catalog oracle dl).failCount =
      (runScript (some key) dirExists existing catalog oracle dl).entries.countP
        (fun r => r.outcome == EntryOutcome.downloadFailed ||
          r.outcome == EntryOutcome.noImage) ∧
    (runScript (some key) dirExists existing catalog oracle dl).successCount +
      (runScript (some key) dirExists existing catalog oracle dl).failCount =
        catalog.length := by
  refine ⟨?_, ?_, ?_⟩
  · have h := runLoop_successCount key oracle dl catalog existing 0 0
    simpa using h
  · have h := runLoop_failCount key oracle dl catalog existing 0 0
    simpa using h
  · have h := runLoop_counts_sum key oracle dl catalog existing 0 0
    simpa using h

/-- C8: in live-fetch mode every entry of the run that was satisfied by the
existing-file shortcut (outcome skipped) awaited no delay and made no
network call, and every other entry — exactly those that made at least one
network call — awaited the fixed 1000 ms rate-limit delay. -/
theorem c8_delay_per_entry (key : String) (dirExists : Bool)
    (existing : List String) (catalog : List StatusRecord)
    (oracle : String → FetchOutcome) (dl : String → DownloadOutcome) :
    ∀ r ∈ (runScript (some key) dirExists existing catalog oracle dl).entries,
      r.delayMs = (if r.outcome = EntryOutcome.skipped then 0 else 1000) ∧
      (r.calls = [] ↔ r.outcome = EntryOutcome.skipped) := by
  intro r hr
  have hmem : r ∈ (runLoop key oracle dl catalog existing 0 0).entries := hr
  obtain ⟨existing2, status, heq⟩ :=
    runLoop_entries_are_processEntry key oracle dl catalog existing 0 0 r hmem
  rw [heq]
  exact processEntry_delay_calls key existing2 oracle dl status

/-- C8 witness: in a run over the one-element catalog for 404 whose file
already exists, the (skipped) entry result has no delay and no calls. -/
theorem c8_delay_per_entry_witness :
    skippedEntry.delayMs =
      (if skippedEntry.outcome = EntryOutcome.skipped then 0 else 1000) ∧
    (skippedEntry.calls = [] ↔ skippedEntry.outcome = EntryOutcome.skipped) :=
  c8_delay_per_entry "k" true ["404.jpg"]
    [{ code := 404, message := "Not Found" }] allEmptyOracle allThrowDl
    skippedEntry (by decide)

/-- If the `<code>.jpg` file of the i-th catalog entry is among the files
present when the loop reaches it is implied by it being present at loop
start, since iterations only add files; the i-th entry result is then the
skipped one. -/
theorem runLoop_skips_existing (key : String) (oracle : String → FetchOutcome)
    (dl : String → DownloadOutcome) :
    ∀ (catalog : List StatusRecord) (existing : List String) (s f i : Nat)
      (hi : i < catalog.length),
      (toString (catalog.get ⟨i, hi⟩).code ++ ".jpg") ∈ existing →
      (runLoop key oracle dl catalog existing s f).entries[i]? = some skippedEntry := by
  intro catalog
  induction catalog with
  | nil => intro existing s f i hi; exact absurd hi (by simp)
  | cons status rest ih =>
    intro existing s f i hi hex
    cases i with
    | zero =>
      have hstat : (((status :: rest).get ⟨0, hi⟩)) = status := rfl
      rw [hstat] at hex
      have hpe : processEntry key existing oracle dl status = skippedEntry := by
        unfold processEntry
        rw [if_pos hex]
        rfl
      simp only [runLoop, hpe]
      exact List.getElem?_cons_zero
    | succ j =>
      have hj : j < rest.length := Nat.lt_of_succ_lt_succ hi
      have hstat : ((status :: rest).get ⟨j + 1, hi⟩) = rest.get ⟨j, hj⟩ := rfl
      rw [hstat] at hex
      simp only [runLoop]
      rw [List.getElem?_cons_succ]
      exact ih (existing ++ (processEntry key existing oracle dl status).wrote)
        (s + outcomeSucc (processEntry key existing oracle dl status).outcome)
        (f + outcomeFail (processEntry key existing oracle dl status).outcome)
        j hj (List.mem_append_left _ hex)

/-- C5: in live-fetch mode, every catalog entry whose `<code>.jpg` file
already exists before the batch runs yields the skipped entry result — zero
network calls, nothing written, no delay, counted as already satisfied —
and the loop still produces a result for every catalog entry. -/
theorem c5_skip_existing_file (key : String) (dirExists : Bool)
    (existing : List String) (catalog : List StatusRecord)
    (oracle : String → FetchOutcome) (dl : String → DownloadOutcome)
    (i : Nat) (hi : i < catalog.length)
    (hex : (toString (catalog.get ⟨i, hi⟩).code ++ ".jpg") ∈ existing) :
    (runScript (some key) dirExists existing catalog oracle dl).entries[i]? =
      some skippedEntry ∧
    (runScript (some key) dirExists existing catalog oracle dl).entries.length =
      catalog.length :=
  ⟨runLoop_skips_existing key oracle dl catalog existing 0 0 i hi hex,
    runLoop_entries_length key oracle dl catalog existing 0 0⟩

/-- C5 witness: pre-creating `404.jpg` makes the run over the one-element
catalog for 404 skip it with zero network calls. -/
theorem c5_skip_existing_file_witness :
    (runScript (some "k") true ["404.jpg"]
        [{ code := 404, message := "Not Found" }] allEmptyOracle
        allThrowDl).entries[0]? = some skippedEntry ∧
    (runScript (some "k") true ["404.jpg"]
        [{ code := 404, message := "Not Found" }] allEmptyOracle
        allThrowDl).entries.length = 1 :=
  c5_skip_existing_file "k" true ["404.jpg"]
    [{ code := 404, message := "Not Found" }] allEmptyOracle allThrowDl
    0 (by decide) (by decide)

/-! ## Helper lemmas about the placeholder mapping -/

/-- Assigning to a JS object leaves the key list unchanged when the key is
already present, and appends the key otherwise. -/
theorem insertRecord_keys (m : List (Nat × String)) (k : Nat) (v : String) :
    (insertRecord m k v).map Prod.fst =
      (if m.any (fun p => p.1 == k) then m.map Prod.fst
        else m.map Prod.fst ++ [k]) := by
  unfold insertRecord
  by_cases h : m.any (fun p => p.1 == k)
  · rw [if_pos h, if_pos h, List.map_map]
    refine List.map_congr_left ?_
    intro p _
    by_cases hp : p.1 == k
    · simp only [Function.comp]
      rw [if_pos hp]
      exact (beq_iff_eq.mp hp).symm
    · simp only [Function.comp]
      rw [if_neg (by simpa using hp)]
  · rw [if_neg h, if_neg h, List.map_append]
    rfl

/-- Key membership after an object assignment. -/
theorem insertRecord_mem_keys (m : List (Nat × String)) (k : Nat) (v : String)
    (j : Nat) :
    (j ∈ (insertRecord m k v).map Prod.fst ↔ j ∈ m.map Prod.fst ∨ j = k) := by
  rw [insertRecord_keys]
  by_cases h : m.any (fun p => p.1 == k)
  · rw [if_pos h]
    have hk : k ∈ m.map Prod.fst := by
      obtain ⟨p, hp, hpk⟩ := List.any_eq_true.mp h
      exact List.mem_map.mpr ⟨p, hp, beq_iff_eq.mp hpk⟩
    constructor
    · exact fun hj => Or.inl hj
    · intro hj
      cases hj with
      | inl hj => exact hj
      | inr hj => rw [hj]; exact hk
  · rw [if_neg h]
    simp

/-- Object assignment preserves distinctness of the key list. -/
theorem insertRecord_keys_nodup (m : List (Nat × String)) (k : Nat) (v : String)
    (hm : (m.map Prod.fst).Nodup) : ((insertRecord m k v).map Prod.fst).Nodup := by
  rw [insertRecord_keys]
  by_cases h : m.any (fun p => p.1 == k)
  · rw [if_pos h]; exact hm
  · rw [if_neg h]
    have hk : k ∉ m.map Prod.fst := by
      intro hk
      obtain ⟨p, hp, hpk⟩ := List.mem_map.mp hk
      have : m.any (fun p => p.1 == k) := List.any_eq_true.mpr ⟨p, hp, by simp [hpk]⟩
      exact h this
    simp [List.nodup_append, hm, hk]

/-- Object assignment preserves a property of all entries that the assigned
pair itself satisfies. -/
theorem insertRecord_forall (m : List (Nat × String)) (k : Nat) (v : String)
    (P : Nat × String → Prop) (hm : ∀ p ∈ m, P p) (hkv : P (k, v)) :
    ∀ p ∈ insertRecord m k v, P p := by
  unfold insertRecord
  by_cases h : m.any (fun p => p.1 == k)
  · rw [if_pos h]
    intro p hp
    obtain ⟨p0, hp0, hfp⟩ := List.mem_map.mp hp
    by_cases hk : p0.1 == k
    · rw [if_pos hk] at hfp
      rw [← hfp]
      exact hkv
    · rw [if_neg (by simpa using hk)] at hfp
      rw [← hfp]
      exact hm p0 hp0
  · rw [if_neg h]
    intro p hp
    cases List.mem_append.mp hp with
    | inl hp => exact hm p hp
    | inr hp =>
      rw [List.mem_singleton.mp hp]
      exact hkv

/-- The keys of the placeholder object built from a catalog suffix, starting
from an accumulator object: membership. -/
theorem buildPlaceholders_go_mem (j : Nat) :
    ∀ (catalog : List StatusRecord) (m : List (Nat × String)),
      (j ∈ (catalog.foldl
          (fun m s => insertRecord m s.code (placeholderUrl s.code)) m).map Prod.fst ↔
        j ∈ m.map Prod.fst ∨ j ∈ catalog.map StatusRecord.code) := by
  intro catalog
  induction catalog with
  | nil => intro m; simp
  | cons status rest ih =>
    intro m
    simp only [List.foldl_cons, List.map_cons, List.mem_cons]
    rw [ih, insertRecord_mem_keys]
    tauto

/-- The keys of the placeholder object are distinct. -/
theorem buildPlaceholders_go_nodup :
    ∀ (catalog : List StatusRecord) (m : List (Nat × String)),
      (m.map Prod.fst).Nodup →
      ((catalog.foldl
          (fun m s => insertRecord m s.code (placeholderUrl s.code)) m).map
        Prod.fst).Nodup := by
  intro catalog
  induction catalog with
  | nil => intro m hm; exact hm
  | cons status rest ih =>
    intro m hm
    simp only [List.foldl_cons]
    exact ih _ (insertRecord_keys_nodup m status.code (placeholderUrl status.code) hm)

/-- Every entry of the placeholder object maps its key to the placeholder
URL of that key. -/
theorem buildPlaceholders_go_values :
    ∀ (catalog : List StatusRecord) (m : List (Nat × String)),
      (∀ p ∈ m, p.2 = placeholderUrl p.1) →
      ∀ p ∈ catalog.foldl
          (fun m s => insertRecord m s.code (placeholderUrl s.code)) m,
        p.2 = placeholderUrl p.1 := by
  intro catalog
  induction catalog with
  | nil => intro m hm; exact hm
  | cons status rest ih =>
    intro m hm
    simp only [List.foldl_cons]
    exact ih _ (insertRecord_forall m status.code (placeholderUrl status.code)
      (fun p => p.2 = placeholderUrl p.1) hm rfl)

/-- C4: in placeholder mode (no credential) the script makes no network
call, runs no fetch-loop iteration, and writes a single mapping document:
the placeholder object, whose key list is exactly the set of catalog codes
with no duplicate key, each key mapped to the placeholder URL — a function
of the code alone; two runs with the same catalog write the identical
document, whatever the filesystem state and service behaviour of each. -/
theorem c4_placeholder_mode (catalog : List StatusRecord)
    (d1 d2 : Bool) (e1 e2 : List String) (o1 o2 : String → FetchOutcome)
    (dl1 dl2 : String → DownloadOutcome) :
    (runScript none d1 e1 catalog o1 dl1).networkCalls = [] ∧
    (runScript none d1 e1 catalog o1 dl1).entries = [] ∧
    (runScript none d1 e1 catalog o1 dl1).placeholderDoc =
      some (buildPlaceholders catalog) ∧
    ((buildPlaceholders catalog).map Prod.fst).Nodup ∧
    (∀ c, c ∈ (buildPlaceholders catalog).map Prod.fst ↔
      c ∈ catalog.map StatusRecord.code) ∧
    (∀ p ∈ buildPlaceholders catalog, p.2 = placeholderUrl p.1) ∧
    (runScript none d1 e1 catalog o1 dl1).placeholderDoc =
      (runScript none d2 e2 catalog o2 dl2).placeholderDoc := by
  refine ⟨rfl, rfl, rfl, ?_, ?_, ?_, rfl⟩
  · exact buildPlaceholders_go_nodup catalog [] (by simp)
  · intro c
    have h := buildPlaceholders_go_mem c catalog []
    simpa [buildPlaceholders] using h
  · exact buildPlaceholders_go_values catalog [] (by simp)

/-- C4 witness: the placeholder run over the one-element catalog for 404
makes no network call and maps 404 to its placeholder URL. -/
theorem c4_placeholder_mode_witness :
    (runScript none false [] [{ code := 404, message := "Not Found" }]
        allEmptyOracle allThrowDl).networkCalls = [] ∧
    ((404 : Nat), placeholderUrl 404).2 = placeholderUrl 404 := by
  have h := c4_placeholder_mode [{ code := 404, message := "Not Found" }]
    false false [] [] allEmptyOracle allEmptyOracle allThrowDl allThrowDl
  exact ⟨h.1, h.2.2.2.2.2.1 (404, placeholderUrl 404) (by decide)⟩

/-- C9: every run — whichever credential mode — performs the recursive
directory-creation step exactly when the rabbits directory is absent, and
when it is absent that creation is the very first effect of the run,
preceding anything the credential branch does. -/
theorem c9_mkdir_before_branch (key : Option String) (dirExists : Bool)
    (existing : List String) (catalog : List StatusRecord)
    (oracle : String → FetchOutcome) (dl : String → DownloadOutcome) :
    (runScript key dirExists existing catalog oracle dl).dirCreated =
      !dirExists ∧
    (dirExists = false →
      (runScript key dirExists existing catalog oracle dl).events.head? =
        some (Event.mkdirRecursive publicDirPath)) := by
  cases key with
  | none =>
    refine ⟨rfl, ?_⟩
    intro h
    rw [h]
    rfl
  | some k =>
    refine ⟨rfl, ?_⟩
    intro h
    rw [h]
    rfl

/-- C9 witness: a placeholder-mode run (no credential) with the directory
absent creates it as its first effect. -/
theorem c9_mkdir_before_branch_witness :
    (runScript none false [] [{ code := 404, message := "Not Found" }]
        allEmptyOracle allThrowDl).events.head? =
      some (Event.mkdirRecursive publicDirPath) :=
  (c9_mkdir_before_branch none false [] [{ code := 404, message := "Not Found" }]
    allEmptyOracle allThrowDl).2 rfl
